import Mathlib

/-!
Verification development for the `MR::Adapter::Reslice` image adapter
(`adapter/reslice.h`): the spatial-resampling engine that re-expresses a
volume sampled on one lattice as a volume sampled on a reference lattice,
optionally composing an extra affine transform, with per-axis oversampling
(sub-voxel sampling and averaging).

The double-precision arithmetic of the source is modelled with exact
rationals; the per-axis displacement norm used by the oversampling
estimator (a square root) lives in `ℝ`.  The pluggable interpolator
(`Interp::Nearest` / `Linear` / `Cubic`) is an external collaborator and is
modelled abstractly as a partial sampling function: `none` at a queried
position means the interpolator reports the position invalid (`!interp`),
in which case reading a value yields its out-of-bounds fallback.
-/

namespace MRReslice

/-- A 3-vector with exact rational components, standing in for the
`Eigen::Vector3d` values of the source (double precision there, exact
rationals here). -/
structure Vec3 where
  x : ℚ
  y : ℚ
  z : ℚ
  deriving DecidableEq

/-- Componentwise difference `a - b`, as in `y - x0` in the estimator. -/
def Vec3.sub (a b : Vec3) : Vec3 :=
  ⟨a.x - b.x, a.y - b.y, a.z - b.z⟩

/-- Squared Euclidean length; `.norm()` in the source is its square root. -/
def normSq (v : Vec3) : ℚ :=
  v.x * v.x + v.y * v.y + v.z * v.z

/-- An affine map of 3-space (`transform_type` in the source): a 3x3 linear
part `mij` plus a translation `bi`. -/
structure Aff where
  m00 : ℚ
  m01 : ℚ
  m02 : ℚ
  m10 : ℚ
  m11 : ℚ
  m12 : ℚ
  m20 : ℚ
  m21 : ℚ
  m22 : ℚ
  b0 : ℚ
  b1 : ℚ
  b2 : ℚ
  deriving DecidableEq

/-- Apply an affine map to a point, `A * v` in Eigen notation. -/
def Aff.apply (A : Aff) (v : Vec3) : Vec3 :=
  ⟨A.m00 * v.x + A.m01 * v.y + A.m02 * v.z + A.b0,
   A.m10 * v.x + A.m11 * v.y + A.m12 * v.z + A.b1,
   A.m20 * v.x + A.m21 * v.y + A.m22 * v.z + A.b2⟩

/-- Composition `A * B` of affine maps (`B` is applied first). -/
def Aff.comp (A B : Aff) : Aff :=
  { m00 := A.m00 * B.m00 + A.m01 * B.m10 + A.m02 * B.m20
    m01 := A.m00 * B.m01 + A.m01 * B.m11 + A.m02 * B.m21
    m02 := A.m00 * B.m02 + A.m01 * B.m12 + A.m02 * B.m22
    m10 := A.m10 * B.m00 + A.m11 * B.m10 + A.m12 * B.m20
    m11 := A.m10 * B.m01 + A.m11 * B.m11 + A.m12 * B.m21
    m12 := A.m10 * B.m02 + A.m11 * B.m12 + A.m12 * B.m22
    m20 := A.m20 * B.m00 + A.m21 * B.m10 + A.m22 * B.m20
    m21 := A.m20 * B.m01 + A.m21 * B.m11 + A.m22 * B.m21
    m22 := A.m20 * B.m02 + A.m21 * B.m12 + A.m22 * B.m22
    b0 := A.m00 * B.b0 + A.m01 * B.b1 + A.m02 * B.b2 + A.b0
    b1 := A.m10 * B.b0 + A.m11 * B.b1 + A.m12 * B.b2 + A.b1
    b2 := A.m20 * B.b0 + A.m21 * B.b1 + A.m22 * B.b2 + A.b2 }

/-- Diagonal scaling map (used to fold voxel spacing into a transform). -/
def scaleAff (s0 s1 s2 : ℚ) : Aff :=
  ⟨s0, 0, 0, 0, s1, 0, 0, 0, s2, 0, 0, 0⟩

/-- The identity affine map (`NoTransform` in the source). -/
def idAff : Aff :=
  scaleAff 1 1 1

/-- Determinant of the linear part. -/
def Aff.det (A : Aff) : ℚ :=
  A.m00 * (A.m11 * A.m22 - A.m12 * A.m21)
    - A.m01 * (A.m10 * A.m22 - A.m12 * A.m20)
    + A.m02 * (A.m10 * A.m21 - A.m11 * A.m20)

/-- Modelled from the spec: the Coordinate Transform component
(`transform.h`, not among the provided sources) "supplies composition and
inversion" of affine maps.  Inversion is the standard adjugate-over-
determinant inverse of the linear part; the translation of the inverse
sends `w` to `Linv (w - b)`. -/
def Aff.inv (A : Aff) : Aff :=
  let d := A.det
  let i00 := (A.m11 * A.m22 - A.m12 * A.m21) / d
  let i01 := (A.m02 * A.m21 - A.m01 * A.m22) / d
  let i02 := (A.m01 * A.m12 - A.m02 * A.m11) / d
  let i10 := (A.m12 * A.m20 - A.m10 * A.m22) / d
  let i11 := (A.m00 * A.m22 - A.m02 * A.m20) / d
  let i12 := (A.m02 * A.m10 - A.m00 * A.m12) / d
  let i20 := (A.m10 * A.m21 - A.m11 * A.m20) / d
  let i21 := (A.m01 * A.m20 - A.m00 * A.m21) / d
  let i22 := (A.m00 * A.m11 - A.m01 * A.m10) / d
  { m00 := i00, m01 := i01, m02 := i02
    m10 := i10, m11 := i11, m12 := i12
    m20 := i20, m21 := i21, m22 := i22
    b0 := -(i00 * A.b0 + i01 * A.b1 + i02 * A.b2)
    b1 := -(i10 * A.b0 + i11 * A.b1 + i12 * A.b2)
    b2 := -(i20 * A.b0 + i21 * A.b1 + i22 * A.b2) }

/-- A Grid Descriptor: per-axis size and spacing of the three spatial axes
plus the header transform, as read off a `HeaderType` by the constructor
(`reference.size(i)`, `reference.voxsize(i)`, `reference.transform()`). -/
structure Grid where
  size0 : ℤ
  size1 : ℤ
  size2 : ℤ
  vox0 : ℚ
  vox1 : ℚ
  vox2 : ℚ
  transform : Aff
  deriving DecidableEq

/-- Modelled from the spec: `Transform(image).voxel2scanner` (from
`transform.h`, not among the provided sources) — the map from
lattice-index space to the shared continuous ("scanner"/world) coordinate
space: the grid's header transform composed with scaling by the voxel
spacing. -/
def Grid.voxel2scanner (g : Grid) : Aff :=
  g.transform.comp (scaleAff g.vox0 g.vox1 g.vox2)

/-- Modelled from the spec: `Transform(image).scanner2voxel`, the inverse
map from world coordinates back to lattice-index coordinates. -/
def Grid.scanner2voxel (g : Grid) : Aff :=
  g.voxel2scanner.inv

/-- The Interpolated Source collaborator (an `Interpolator<ImageType>`
instance): `sample p` models positioning it with `interp.voxel(p)` and
reading back — `none` when it reports the position invalid (`!interp`),
`some v` with the interpolated value otherwise.  `oob` is the
`value_when_out_of_bounds` fallback its `value()` yields at an invalid
position.  `size` and `voxsize` report its geometry for the pass-through
axes.  Non-spatial cursor state of the source is abstracted into
`sample`, which is fixed for the duration of one `value()` call. -/
structure Interp where
  sample : Vec3 → Option ℚ
  oob : ℚ
  size : ℕ → ℤ
  voxsize : ℕ → ℚ

/-- Position the interpolator at `p` and read `interp.value()`: the
interpolated value when valid, the out-of-bounds fallback otherwise. -/
def Interp.valueAt (I : Interp) (p : Vec3) : ℚ :=
  (I.sample p).getD I.oob

/-- The state of a `Reslice` adapter object: the wrapped interpolator, the
spatial cursor `x[3]`, the reference grid's dimensions/spacing/transform
(`dim`, `vox`, `transform_`), the composed reference-index to source-index
map `direct_transform`, and the oversampling plan (`oversampling`, `OS`,
`from` — called `fr` here as `from` is reserved — `inc`, `norm`). -/
structure Reslice where
  interp : Interp
  x0 : ℤ
  x1 : ℤ
  x2 : ℤ
  dim0 : ℤ
  dim1 : ℤ
  dim2 : ℤ
  vox0 : ℚ
  vox1 : ℚ
  vox2 : ℚ
  transform_ : Aff
  direct : Aff
  oversampling : Bool
  OS0 : ℤ
  OS1 : ℤ
  OS2 : ℤ
  fr0 : ℚ
  fr1 : ℚ
  fr2 : ℚ
  inc0 : ℚ
  inc1 : ℚ
  inc2 : ℚ
  norm : ℚ

/-- State the constructor builds once the oversampling factors `a b c` are
fixed (supplied explicitly or estimated): cursor zeroed, reference
geometry copied, and — when `OS[0]*OS[1]*OS[2] > 1` — `oversampling` set
with `inc[i] = 1/OS[i]`, `from[i] = 0.5*(inc[i] - 1)` and
`norm = 1/(OS[0]*OS[1]*OS[2])`.  When the product is not greater than 1
the source leaves `inc`, `from` and `norm` uninitialised and never reads
them; they are modelled as `0`. -/
def planReslice (I : Interp) (ref : Grid) (d : Aff) (a b c : ℤ) : Reslice :=
  { interp := I
    x0 := 0, x1 := 0, x2 := 0
    dim0 := ref.size0, dim1 := ref.size1, dim2 := ref.size2
    vox0 := ref.vox0, vox1 := ref.vox1, vox2 := ref.vox2
    transform_ := ref.transform
    direct := d
    oversampling := decide (1 < a * b * c)
    OS0 := a, OS1 := b, OS2 := c
    fr0 := if 1 < a * b * c then (1 / (a : ℚ) - 1) / 2 else 0
    fr1 := if 1 < a * b * c then (1 / (b : ℚ) - 1) / 2 else 0
    fr2 := if 1 < a * b * c then (1 / (c : ℚ) - 1) / 2 else 0
    inc0 := if 1 < a * b * c then 1 / (a : ℚ) else 0
    inc1 := if 1 < a * b * c then 1 / (b : ℚ) else 0
    inc2 := if 1 < a * b * c then 1 / (c : ℚ) else 0
    norm := if 1 < a * b * c then 1 / ((a : ℚ) * (b : ℚ) * (c : ℚ)) else 0 }

/-- The composed mapping
`direct_transform = Transform(original).scanner2voxel * transform *
Transform(reference).voxel2scanner`, taking reference-lattice index
coordinates to source-lattice index coordinates. -/
def composedDirect (src ref : Grid) (T : Aff) : Aff :=
  ((src.scanner2voxel).comp T).comp ref.voxel2scanner

/-- One automatically estimated oversampling factor:
`std::ceil (0.999 * (y - x0).norm())` with `y = direct_transform * (0,0,0)`
and `x0 = direct_transform * u`, `u` the unit step along the axis. -/
noncomputable def osFactor (d : Aff) (u : Vec3) : ℤ :=
  ⌈(999 / 1000 : ℝ) * Real.sqrt ((normSq ((d.apply ⟨0, 0, 0⟩).sub (d.apply u)) : ℚ) : ℝ)⌉

/-- The `Reslice` constructor.  `os = some (a, b, c)` models a non-empty
explicit `oversample` vector: factors below 1 on any axis raise
`Exception ("oversample factors must be greater than zero")`, otherwise
they are taken verbatim.  `os = none` models `AutoOverSample`: the three
factors are estimated from the composed mapping. -/
noncomputable def makeReslice (I : Interp) (src ref : Grid) (T : Aff)
    (os : Option (ℤ × ℤ × ℤ)) : Except String Reslice :=
  match os with
  | Option.some (a, b, c) =>
      if a < 1 ∨ b < 1 ∨ c < 1 then
        Except.error "oversample factors must be greater than zero"
      else
        Except.ok (planReslice I ref (composedDirect src ref T) a b c)
  | Option.none =>
      let d := composedDirect src ref T
      Except.ok (planReslice I ref d
        (osFactor d ⟨1, 0, 0⟩) (osFactor d ⟨0, 1, 0⟩) (osFactor d ⟨0, 0, 1⟩))

/-- Accessor `size (axis)`: reference dimensions for the three spatial
axes, pass-through to the wrapped interpolator beyond them. -/
def Reslice.sizeAx (r : Reslice) (axis : ℕ) : ℤ :=
  if axis < 3 then (if axis = 0 then r.dim0 else if axis = 1 then r.dim1 else r.dim2)
  else r.interp.size axis

/-- Accessor `voxsize (axis)`: reference spacing for the three spatial
axes, pass-through to the wrapped interpolator beyond them. -/
def Reslice.voxsizeAx (r : Reslice) (axis : ℕ) : ℚ :=
  if axis < 3 then (if axis = 0 then r.vox0 else if axis = 1 then r.vox1 else r.vox2)
  else r.interp.voxsize axis

/-- Accessor `transform ()`: the stored reference transform `transform_`. -/
def Reslice.transform (r : Reslice) : Aff :=
  r.transform_

/-- The continuous sub-sample position for sub-indices `(i, j, k)` along
axes `(0, 1, 2)`, already mapped into source-index space:
`direct_transform * s` with `s[a] = x[a] + from[a] + k_a * inc[a]`. -/
def Reslice.subPos (r : Reslice) (i j k : ℕ) : Vec3 :=
  r.direct.apply
    ⟨(r.x0 : ℚ) + r.fr0 + (i : ℚ) * r.inc0,
     (r.x1 : ℚ) + r.fr1 + (j : ℚ) * r.inc1,
     (r.x2 : ℚ) + r.fr2 + (k : ℚ) * r.inc2⟩

/-- Contribution of one sub-sample to the accumulating loop of
`value ()`: `interp.voxel (p); if (!interp) continue; else
result += interp.value ();` — an invalid position is skipped (contributes
nothing), a valid one contributes the interpolated value. -/
def sampleOrZero (I : Interp) (p : Vec3) : ℚ :=
  match I.sample p with
  | Option.none => 0
  | Option.some v => v

/-- The const `value ()` member.  Oversampling path: triple loop over the
sub-samples (`z` outermost, then `y`, then `x`), each sub-position queried
through the interpolator; an invalid position (`!interp`) is skipped
(`continue`), a valid one accumulates `interp.value()`; the total is
multiplied by `norm`.  Non-oversampling path: a single query at the cursor
mapped through `direct_transform`, returning `interp.value()` directly. -/
def resliceValue (r : Reslice) : ℚ :=
  if r.oversampling then
    (∑ z ∈ Finset.range r.OS2.toNat, ∑ yy ∈ Finset.range r.OS1.toNat,
      ∑ xx ∈ Finset.range r.OS0.toNat,
        sampleOrZero r.interp (r.subPos xx yy z)) * r.norm
  else
    r.interp.valueAt (r.direct.apply ⟨(r.x0 : ℚ), (r.x1 : ℚ), (r.x2 : ℚ)⟩)

/-- The sequence of positions at which `value ()` invokes
`interp.voxel (...)`, in loop order: all sub-sample positions when
oversampling, the single mapped cursor position otherwise. -/
def resliceQueries (r : Reslice) : List Vec3 :=
  if r.oversampling then
    (List.range r.OS2.toNat).flatMap fun z =>
      (List.range r.OS1.toNat).flatMap fun yy =>
        (List.range r.OS0.toNat).map fun xx => r.subPos xx yy z
  else
    [r.direct.apply ⟨(r.x0 : ℚ), (r.x1 : ℚ), (r.x2 : ℚ)⟩]

/-- The non-const `value ()` overload of the source reads
`value_type value () \x7b const auto* _this = this; _this->value(); \x7d`:
it invokes the const overload but contains no `return` statement, so the
computed value is discarded and the function yields no defined value
(undefined behaviour in C++); the absent return value is modelled as
`none`. -/
def resliceValueNonConst (r : Reslice) : Option ℚ :=
  let _discarded := resliceValue r
  Option.none

/-- Index triples `(z, y, x)` of the full sub-sample loop nest. -/
def subSamples (r : Reslice) : Finset (ℕ × ℕ × ℕ) :=
  Finset.range r.OS2.toNat ×ˢ (Finset.range r.OS1.toNat ×ˢ Finset.range r.OS0.toNat)

/-- The sub-sample indices whose position the interpolator reports
invalid. -/
def invalidSubSamples (r : Reslice) : Finset (ℕ × ℕ × ℕ) :=
  (subSamples r).filter fun t => r.interp.sample (r.subPos t.2.2 t.2.1 t.1) = Option.none

/-- An interpolated view of a source volume every voxel of which holds the
value 3, valid at every queried position. -/
def constInterp3 : Interp :=
  ⟨fun _ => Option.some 3, 0, fun _ => 4, fun _ => 1⟩

/-- An interpolated source that is invalid at negative first coordinates
and reads 5 elsewhere (a half-space boundary). -/
def stepInterp5 : Interp :=
  ⟨fun p => if p.x < 0 then Option.none else Option.some 5, 0, fun _ => 1, fun _ => 1⟩

/-- A unit source/reference grid: unit sizes and spacing, identity header
transform. -/
def unitGrid : Grid :=
  ⟨1, 1, 1, 1, 1, 1, idAff⟩

/-- Source grid of the end-to-end example: 4x4x4 voxels, spacing
(1,1,1), identity transform. -/
def srcGrid4 : Grid :=
  ⟨4, 4, 4, 1, 1, 1, idAff⟩

/-- Reference grid of the end-to-end example: 8x8x8 voxels, spacing
(1/2,1/2,1/2), identity transform. -/
def refGrid8 : Grid :=
  ⟨8, 8, 8, 1 / 2, 1 / 2, 1 / 2, idAff⟩

/-- A reference grid with given spacing `s` on axis 0 (used to study the
estimated factor as a function of the reference spacing). -/
def setVox0 (g : Grid) (s : ℚ) : Grid :=
  { g with vox0 := s }

/-- A reference grid with given spacing `s` on axis 1. -/
def setVox1 (g : Grid) (s : ℚ) : Grid :=
  { g with vox1 := s }

/-- A reference grid with given spacing `s` on axis 2. -/
def setVox2 (g : Grid) (s : ℚ) : Grid :=
  { g with vox2 := s }

/-- The automatically estimated factor for axis 0, as a function of the
two grids and the extra transform. -/
noncomputable def estFactor0 (src ref : Grid) (T : Aff) : ℤ :=
  osFactor (composedDirect src ref T) ⟨1, 0, 0⟩

/-- The automatically estimated factor for axis 1. -/
noncomputable def estFactor1 (src ref : Grid) (T : Aff) : ℤ :=
  osFactor (composedDirect src ref T) ⟨0, 1, 0⟩

/-- The automatically estimated factor for axis 2. -/
noncomputable def estFactor2 (src ref : Grid) (T : Aff) : ℤ :=
  osFactor (composedDirect src ref T) ⟨0, 0, 1⟩

/-- A default (inert) reslice state, target of `rOf` on the error case. -/
def reslice0 : Reslice :=
  planReslice ⟨fun _ => Option.none, 0, fun _ => 0, fun _ => 0⟩ unitGrid idAff 1 1 1

/-- Extract the constructed state from a successful construction. -/
def rOf (e : Except String Reslice) : Reslice :=
  match e with
  | Except.ok r => r
  | Except.error _ => reslice0

/-- A concrete construction with explicit factor triple (1, 1, 1). -/
noncomputable def mk111 : Except String Reslice :=
  makeReslice constInterp3 srcGrid4 refGrid8 idAff (Option.some (1, 1, 1))

/-- A concrete construction with explicit factor triple (2, 1, 1) over the
boundary interpolator. -/
noncomputable def mk211 : Except String Reslice :=
  makeReslice stepInterp5 unitGrid unitGrid idAff (Option.some (2, 1, 1))

/-- A concrete automatic construction (matching unit grids). -/
noncomputable def mkAuto : Except String Reslice :=
  makeReslice constInterp3 unitGrid unitGrid idAff Option.none

/-- The state `mk211` constructs, written with computable parts only. -/
def w211 : Reslice :=
  planReslice stepInterp5 unitGrid (composedDirect unitGrid unitGrid idAff) 2 1 1

lemma sampleOrZero_eq_getD (I : Interp) (p : Vec3) :
    sampleOrZero I p = (I.sample p).getD 0 := by
  unfold sampleOrZero
  cases I.sample p <;> rfl

lemma makeReslice_ok_cases {I : Interp} {src ref : Grid} {T : Aff}
    {os : Option (ℤ × ℤ × ℤ)} {r : Reslice}
    (h : makeReslice I src ref T os = Except.ok r) :
    ∃ a b c : ℤ, r = planReslice I ref (composedDirect src ref T) a b c := by
  cases os with
  | none =>
      simp only [makeReslice, Except.ok.injEq] at h
      exact ⟨_, _, _, h.symm⟩
  | some t =>
      obtain ⟨a, b, c⟩ := t
      by_cases hlt : a < 1 ∨ b < 1 ∨ c < 1
      · simp [makeReslice, hlt] at h
      · refine ⟨a, b, c, ?_⟩
        simp only [makeReslice, if_neg hlt, Except.ok.injEq] at h
        exact h.symm

lemma osFactor_nonneg (d : Aff) (u : Vec3) : 0 ≤ osFactor d u := by
  unfold osFactor
  exact Int.ceil_nonneg (by positivity)

lemma makeReslice_ok_OS_nonneg {I : Interp} {src ref : Grid} {T : Aff}
    {os : Option (ℤ × ℤ × ℤ)} {r : Reslice}
    (h : makeReslice I src ref T os = Except.ok r) :
    0 ≤ r.OS0 ∧ 0 ≤ r.OS1 ∧ 0 ≤ r.OS2 := by
  cases os with
  | none =>
      simp only [makeReslice, Except.ok.injEq] at h
      subst h
      exact ⟨osFactor_nonneg _ _, osFactor_nonneg _ _, osFactor_nonneg _ _⟩
  | some t =>
      obtain ⟨a, b, c⟩ := t
      by_cases hlt : a < 1 ∨ b < 1 ∨ c < 1
      · simp [makeReslice, hlt] at h
      · simp only [makeReslice, if_neg hlt, Except.ok.injEq] at h
        subst h
        push_neg at hlt
        obtain ⟨ha, hb, hc⟩ := hlt
        simp only [planReslice]
        exact ⟨by omega, by omega, by omega⟩

/-- C8: the size query splits at axis 3 between the reference grid and the
wrapped Interpolated Source, the spacing query splits the same way, and
the transform query returns the reference grid's transform (not the
composed mapping). -/
theorem accessor_pass_through (I : Interp) (src ref : Grid) (T : Aff)
    (os : Option (ℤ × ℤ × ℤ)) (r : Reslice)
    (h : makeReslice I src ref T os = Except.ok r) :
    (∀ axis : ℕ, r.sizeAx axis =
        if axis < 3 then
          (if axis = 0 then ref.size0 else if axis = 1 then ref.size1 else ref.size2)
        else I.size axis)
    ∧ (∀ axis : ℕ, r.voxsizeAx axis =
        if axis < 3 then
          (if axis = 0 then ref.vox0 else if axis = 1 then ref.vox1 else ref.vox2)
        else I.voxsize axis)
    ∧ r.transform = ref.transform := by
  obtain ⟨a, b, c, rfl⟩ := makeReslice_ok_cases h
  refine ⟨fun axis => ?_, fun axis => ?_, rfl⟩
  · simp [Reslice.sizeAx, planReslice]
  · simp [Reslice.voxsizeAx, planReslice]

/-- Witness for C8 at a concrete construction: spatial axes report the
reference geometry, axis 3 passes through to the wrapped source. -/
theorem accessor_pass_through_witness :
    mk111 = Except.ok (rOf mk111)
    ∧ (rOf mk111).sizeAx 0 = 8 ∧ (rOf mk111).sizeAx 3 = 4
    ∧ (rOf mk111).voxsizeAx 1 = 1 / 2 ∧ (rOf mk111).transform = idAff := by
  have hok : mk111 = Except.ok (rOf mk111) := rfl
  have h := accessor_pass_through constInterp3 srcGrid4 refGrid8 idAff
    (Option.some (1, 1, 1)) (rOf mk111) hok
  refine ⟨hok, ?_, ?_, ?_, ?_⟩
  · rw [h.1 0]; norm_num [refGrid8]
  · rw [h.1 3]; norm_num [constInterp3]
  · rw [h.2.1 1]; norm_num [refGrid8]
  · rw [h.2.2]; rfl

/-- C6: construction fails exactly when an explicit factor triple contains
an entry below 1; automatic estimation never fails; and explicit factors
at least 1 are adopted verbatim. -/
theorem construction_error_iff (I : Interp) (src ref : Grid) (T : Aff)
    (a b c : ℤ) :
    ((makeReslice I src ref T (Option.some (a, b, c))).isOk = false ↔
        (a < 1 ∨ b < 1 ∨ c < 1))
    ∧ (makeReslice I src ref T Option.none).isOk = true
    ∧ (∀ r, makeReslice I src ref T (Option.some (a, b, c)) = Except.ok r →
        r.OS0 = a ∧ r.OS1 = b ∧ r.OS2 = c) := by
  refine ⟨?_, ?_, ?_⟩
  · by_cases hlt : a < 1 ∨ b < 1 ∨ c < 1 <;>
      simp [makeReslice, hlt, Except.isOk, Except.toBool]
  · simp [makeReslice, Except.isOk, Except.toBool]
  · intro r h
    by_cases hlt : a < 1 ∨ b < 1 ∨ c < 1
    · simp [makeReslice, hlt] at h
    · simp only [makeReslice, if_neg hlt, Except.ok.injEq] at h
      subst h
      exact ⟨rfl, rfl, rfl⟩

/-- Witness for C6: a zero factor on the first axis is rejected, the
automatic path succeeds, and accepted explicit factors are verbatim. -/
theorem construction_error_iff_witness :
    (makeReslice stepInterp5 unitGrid unitGrid idAff
        (Option.some (0, 1, 1))).isOk = false
    ∧ (makeReslice stepInterp5 unitGrid unitGrid idAff Option.none).isOk = true
    ∧ (rOf mk211).OS0 = 2 := by
  have h0 := construction_error_iff stepInterp5 unitGrid unitGrid idAff 0 1 1
  have h2 := construction_error_iff stepInterp5 unitGrid unitGrid idAff 2 1 1
  refine ⟨h0.1.mpr (Or.inl (by norm_num)), h0.2.1, ?_⟩
  exact (h2.2.2 (rOf mk211) rfl).1

/-- Counterexample to C9 as stated: not every invocation of `value ()`
returns the same result through either overload at a fixed state — the
non-const overload, having no return statement, does not return the value
the const overload computes at the same state. -/
theorem nonconst_breaks_determinism_cex :
    resliceValueNonConst (planReslice constInterp3 unitGrid idAff 1 1 1) ≠
      Option.some (resliceValue (planReslice constInterp3 unitGrid idAff 1 1 1)) := by
  unfold resliceValueNonConst
  exact fun hc => Option.noConfusion hc

/-- C9 (amended to the const overload): `value () const` is a
deterministic function of exactly the cursor, the oversampling plan, the
composed mapping and the wrapped source's sampling behaviour — two states
agreeing on those (but possibly differing in the reference bookkeeping
`dim`, `vox`, `transform_` or the pass-through geometry of the source)
yield equal values. -/
theorem const_value_deterministic (r s : Reslice)
    (hx0 : r.x0 = s.x0) (hx1 : r.x1 = s.x1) (hx2 : r.x2 = s.x2)
    (hov : r.oversampling = s.oversampling)
    (hOS0 : r.OS0 = s.OS0) (hOS1 : r.OS1 = s.OS1) (hOS2 : r.OS2 = s.OS2)
    (hfr0 : r.fr0 = s.fr0) (hfr1 : r.fr1 = s.fr1) (hfr2 : r.fr2 = s.fr2)
    (hinc0 : r.inc0 = s.inc0) (hinc1 : r.inc1 = s.inc1) (hinc2 : r.inc2 = s.inc2)
    (hnorm : r.norm = s.norm) (hdir : r.direct = s.direct)
    (hsample : r.interp.sample = s.interp.sample)
    (hoob : r.interp.oob = s.interp.oob) :
    resliceValue r = resliceValue s := by
  unfold resliceValue Reslice.subPos sampleOrZero Interp.valueAt
  rw [hx0, hx1, hx2, hov, hOS0, hOS1, hOS2, hfr0, hfr1, hfr2, hinc0, hinc1,
    hinc2, hnorm, hdir, hsample, hoob]

/-- Witness for the amended C9: two states sharing cursor, plan, mapping
and source but with different reference dimensions give the same value. -/
theorem const_value_deterministic_witness :
    resliceValue (planReslice stepInterp5 unitGrid idAff 2 1 1) =
      resliceValue (planReslice stepInterp5 srcGrid4 idAff 2 1 1)
    ∧ (planReslice stepInterp5 unitGrid idAff 2 1 1).dim0 ≠
        (planReslice stepInterp5 srcGrid4 idAff 2 1 1).dim0 := by
  constructor
  · exact const_value_deterministic _ _ rfl rfl rfl rfl rfl rfl rfl rfl rfl rfl
      rfl rfl rfl rfl rfl rfl rfl
  · decide

/-- C10: the non-const `value ()` overload computes the const overload's
value but, lacking a return statement, produces no defined result — at a
state whose const `value ()` is 5 the non-const overload still returns
nothing. -/
theorem nonconst_value_missing_return :
    resliceValueNonConst (planReslice stepInterp5 unitGrid idAff 2 1 1) =
      Option.none
    ∧ resliceValue (planReslice stepInterp5 unitGrid idAff 2 1 1) = 5 / 2 := by
  constructor
  · rfl
  · norm_num [resliceValue, planReslice, Reslice.subPos, sampleOrZero,
      stepInterp5, unitGrid, idAff, scaleAff, Aff.apply,
      show (2 : ℤ).toNat = 2 from rfl,
      Finset.sum_range_succ, Finset.sum_range_zero]

lemma resliceValue_eq_sum (r : Reslice) (hos : r.oversampling = true) :
    resliceValue r =
      (∑ t ∈ subSamples r,
        (r.interp.sample (r.subPos t.2.2 t.2.1 t.1)).getD 0) * r.norm := by
  unfold resliceValue subSamples
  simp only [hos, if_true]
  simp [Finset.sum_product, sampleOrZero_eq_getD]

/-- C1: with an active oversampling plan (factor product above 1),
`value ()` is the sum, over all `OS[0]*OS[1]*OS[2]` sub-sample positions
`cursor[i] + 0.5*(1/OS[i] - 1) + k*(1/OS[i])` mapped through the composed
transform, of the source's value at the positions it reports valid
(invalid ones contributing zero), multiplied by `1/(OS[0]*OS[1]*OS[2])` —
the total sub-sample count, not the valid count. -/
theorem oversampled_value_spec (I : Interp) (src ref : Grid) (T : Aff)
    (os : Option (ℤ × ℤ × ℤ)) (r : Reslice)
    (h : makeReslice I src ref T os = Except.ok r)
    (hp : 1 < r.OS0 * r.OS1 * r.OS2) (c0 c1 c2 : ℤ) :
    resliceValue { r with x0 := c0, x1 := c1, x2 := c2 } =
      (∑ z ∈ Finset.range r.OS2.toNat, ∑ yy ∈ Finset.range r.OS1.toNat,
        ∑ xx ∈ Finset.range r.OS0.toNat,
          (I.sample ((composedDirect src ref T).apply
            ⟨(c0 : ℚ) + (1 / (r.OS0 : ℚ) - 1) / 2 + (xx : ℚ) * (1 / (r.OS0 : ℚ)),
             (c1 : ℚ) + (1 / (r.OS1 : ℚ) - 1) / 2 + (yy : ℚ) * (1 / (r.OS1 : ℚ)),
             (c2 : ℚ) + (1 / (r.OS2 : ℚ) - 1) / 2 + (z : ℚ) * (1 / (r.OS2 : ℚ))⟩)).getD 0)
        * (1 / ((r.OS0 : ℚ) * (r.OS1 : ℚ) * (r.OS2 : ℚ))) := by
  obtain ⟨a, b, c, rfl⟩ := makeReslice_ok_cases h
  simp only [planReslice] at hp
  simp [resliceValue, planReslice, Reslice.subPos, sampleOrZero_eq_getD, hp]

/-- Witness for C1 at the concrete (2,1,1) plan over the boundary
interpolator: one of two sub-samples is invalid, the other reads 5, and
the value is 5 * (1/2). -/
theorem oversampled_value_spec_witness :
    mk211 = Except.ok (rOf mk211)
    ∧ 1 < (rOf mk211).OS0 * (rOf mk211).OS1 * (rOf mk211).OS2
    ∧ resliceValue { rOf mk211 with x0 := 0, x1 := 0, x2 := 0 } = 5 / 2 := by
  have hok : mk211 = Except.ok (rOf mk211) := rfl
  have hp : 1 < (rOf mk211).OS0 * (rOf mk211).OS1 * (rOf mk211).OS2 := by decide
  refine ⟨hok, hp, ?_⟩
  have h := oversampled_value_spec stepInterp5 unitGrid unitGrid idAff
    (Option.some (2, 1, 1)) (rOf mk211) hok hp 0 0 0
  rw [h]
  norm_num [show rOf mk211 = planReslice stepInterp5 unitGrid
      (composedDirect unitGrid unitGrid idAff) 2 1 1 from rfl,
    planReslice, composedDirect, Grid.scanner2voxel, Grid.voxel2scanner,
    Aff.inv, Aff.det, Aff.comp, Aff.apply, scaleAff, idAff, unitGrid,
    stepInterp5, show (2 : ℤ).toNat = 2 from rfl,
    Finset.sum_range_succ, Finset.sum_range_zero]

lemma resliceValue_half_general (r : Reslice) (V : ℚ)
    (hos : r.oversampling = true)
    (hnorm : r.norm = 1 / ((subSamples r).card : ℚ))
    (hcard2 : 1 < (subSamples r).card)
    (hhalf : 2 * (invalidSubSamples r).card = (subSamples r).card)
    (hV : ∀ t ∈ subSamples r,
        r.interp.sample (r.subPos t.2.2 t.2.1 t.1) ≠ Option.none →
        r.interp.sample (r.subPos t.2.2 t.2.1 t.1) = Option.some V) :
    resliceValue r = V / 2 := by
  rw [resliceValue_eq_sum r hos, hnorm]
  have hsplit := Finset.filter_card_add_filter_neg_card_eq_card
    (s := subSamples r)
    (p := fun t => r.interp.sample (r.subPos t.2.2 t.2.1 t.1) = Option.none)
  have hsum : (∑ t ∈ subSamples r,
      (r.interp.sample (r.subPos t.2.2 t.2.1 t.1)).getD 0) =
      (((subSamples r).filter fun t =>
        ¬ r.interp.sample (r.subPos t.2.2 t.2.1 t.1) = Option.none).card : ℚ) * V := by
    rw [← Finset.sum_filter_add_sum_filter_not (subSamples r)
      (fun t => r.interp.sample (r.subPos t.2.2 t.2.1 t.1) = Option.none)]
    have h1 : (∑ t ∈ (subSamples r).filter
        (fun t => r.interp.sample (r.subPos t.2.2 t.2.1 t.1) = Option.none),
        (r.interp.sample (r.subPos t.2.2 t.2.1 t.1)).getD 0) = 0 :=
      Finset.sum_eq_zero fun t ht => by
        rw [(Finset.mem_filter.mp ht).2]; rfl
    have h2 : (∑ t ∈ (subSamples r).filter
        (fun t => ¬ r.interp.sample (r.subPos t.2.2 t.2.1 t.1) = Option.none),
        (r.interp.sample (r.subPos t.2.2 t.2.1 t.1)).getD 0) =
        (((subSamples r).filter fun t =>
          ¬ r.interp.sample (r.subPos t.2.2 t.2.1 t.1) = Option.none).card : ℚ) * V := by
      rw [Finset.sum_congr rfl fun t ht => ?_, Finset.sum_const, nsmul_eq_mul]
      obtain ⟨htS, htP⟩ := Finset.mem_filter.mp ht
      rw [hV t htS htP]
      rfl
    rw [h1, h2, zero_add]
  rw [hsum]
  have hinv : invalidSubSamples r = (subSamples r).filter
      (fun t => r.interp.sample (r.subPos t.2.2 t.2.1 t.1) = Option.none) := rfl
  rw [hinv] at hhalf
  have hm : ((subSamples r).filter fun t =>
      ¬ r.interp.sample (r.subPos t.2.2 t.2.1 t.1) = Option.none).card =
      ((subSamples r).filter fun t =>
      r.interp.sample (r.subPos t.2.2 t.2.1 t.1) = Option.none).card := by
    omega
  rw [hm]
  have hmne : (((subSamples r).filter fun t =>
      r.interp.sample (r.subPos t.2.2 t.2.1 t.1) = Option.none).card : ℚ) ≠ 0 := by
    have hmpos : 0 < ((subSamples r).filter fun t =>
        r.interp.sample (r.subPos t.2.2 t.2.1 t.1) = Option.none).card := by omega
    exact ne_of_gt (by exact_mod_cast hmpos)
  have hcardq : ((subSamples r).card : ℚ) =
      2 * (((subSamples r).filter fun t =>
        r.interp.sample (r.subPos t.2.2 t.2.1 t.1) = Option.none).card : ℚ) := by
    exact_mod_cast congrArg (Nat.cast : ℕ → ℚ) hhalf.symm
  rw [hcardq]
  field_simp
  ring

/-- C2: in an oversampled voxel where exactly half of the sub-samples (by
count) are reported invalid and every valid one reads `V`, `value ()`
returns `V/2`, not `V`. -/
theorem half_invalid_attenuation (I : Interp) (src ref : Grid) (T : Aff)
    (os : Option (ℤ × ℤ × ℤ)) (r : Reslice)
    (h : makeReslice I src ref T os = Except.ok r)
    (hp : 1 < r.OS0 * r.OS1 * r.OS2) (c0 c1 c2 : ℤ) (V : ℚ)
    (hhalf : 2 * (invalidSubSamples { r with x0 := c0, x1 := c1, x2 := c2 }).card =
        (subSamples { r with x0 := c0, x1 := c1, x2 := c2 }).card)
    (hV : ∀ t ∈ subSamples { r with x0 := c0, x1 := c1, x2 := c2 },
        I.sample (Reslice.subPos { r with x0 := c0, x1 := c1, x2 := c2 }
          t.2.2 t.2.1 t.1) ≠ Option.none →
        I.sample (Reslice.subPos { r with x0 := c0, x1 := c1, x2 := c2 }
          t.2.2 t.2.1 t.1) = Option.some V) :
    resliceValue { r with x0 := c0, x1 := c1, x2 := c2 } = V / 2 := by
  obtain ⟨hOS0, hOS1, hOS2⟩ := makeReslice_ok_OS_nonneg h
  obtain ⟨a, b, c, rfl⟩ := makeReslice_ok_cases h
  simp only [planReslice] at hOS0 hOS1 hOS2 hp
  have ha' : ((a.toNat : ℕ) : ℚ) = (a : ℚ) := by
    exact_mod_cast congrArg (Int.cast : ℤ → ℚ) (Int.toNat_of_nonneg hOS0)
  have hb' : ((b.toNat : ℕ) : ℚ) = (b : ℚ) := by
    exact_mod_cast congrArg (Int.cast : ℤ → ℚ) (Int.toNat_of_nonneg hOS1)
  have hc' : ((c.toNat : ℕ) : ℚ) = (c : ℚ) := by
    exact_mod_cast congrArg (Int.cast : ℤ → ℚ) (Int.toNat_of_nonneg hOS2)
  have hcardS : (subSamples { planReslice I ref (composedDirect src ref T) a b c with
      x0 := c0, x1 := c1, x2 := c2 }).card = c.toNat * (b.toNat * a.toNat) := by
    simp [subSamples, planReslice]
  refine resliceValue_half_general _ V (by simp [planReslice, hp]) ?_ ?_ hhalf hV
  · rw [hcardS]
    have hnormval : Reslice.norm
        { planReslice I ref (composedDirect src ref T) a b c with
          x0 := c0, x1 := c1, x2 := c2 } =
        1 / ((a : ℚ) * (b : ℚ) * (c : ℚ)) := by
      simp [planReslice, hp]
    rw [hnormval]
    push_cast
    rw [ha', hb', hc']
    ring_nf
  · rw [hcardS]
    have : (1 : ℤ) < a * b * c := hp
    have hZ : ((c.toNat * (b.toNat * a.toNat) : ℕ) : ℤ) = a * b * c := by
      push_cast [Int.toNat_of_nonneg hOS0, Int.toNat_of_nonneg hOS1,
        Int.toNat_of_nonneg hOS2]
      ring
    omega

/-- Witness for C2: in the concrete (2,1,1) plan over the boundary
interpolator, one of the two sub-samples is invalid, the valid one reads
5, and the output is 5/2. -/
theorem half_invalid_attenuation_witness :
    makeReslice stepInterp5 unitGrid unitGrid idAff (Option.some (2, 1, 1)) =
      Except.ok w211
    ∧ 2 * (invalidSubSamples { w211 with x0 := 0, x1 := 0, x2 := 0 }).card =
        (subSamples { w211 with x0 := 0, x1 := 0, x2 := 0 }).card
    ∧ resliceValue { w211 with x0 := 0, x1 := 0, x2 := 0 } = 5 / 2 := by
  have e0 : stepInterp5.sample
      (Reslice.subPos { w211 with x0 := 0, x1 := 0, x2 := 0 } 0 0 0) =
      Option.none := by
    norm_num [w211, planReslice, Reslice.subPos, composedDirect,
      Grid.scanner2voxel, Grid.voxel2scanner, Aff.inv, Aff.det, Aff.comp,
      Aff.apply, scaleAff, idAff, unitGrid, stepInterp5]
  have e1 : stepInterp5.sample
      (Reslice.subPos { w211 with x0 := 0, x1 := 0, x2 := 0 } 1 0 0) =
      Option.some 5 := by
    norm_num [w211, planReslice, Reslice.subPos, composedDirect,
      Grid.scanner2voxel, Grid.voxel2scanner, Aff.inv, Aff.det, Aff.comp,
      Aff.apply, scaleAff, idAff, unitGrid, stepInterp5]
  have hS : subSamples { w211 with x0 := 0, x1 := 0, x2 := 0 } =
      {(0, 0, 0), (0, 0, 1)} := by decide
  have hinvS : invalidSubSamples { w211 with x0 := 0, x1 := 0, x2 := 0 } =
      {(0, 0, 0)} := by
    unfold invalidSubSamples
    rw [hS, Finset.filter_insert, Finset.filter_singleton]
    norm_num [w211, planReslice, Reslice.subPos, composedDirect,
      Grid.scanner2voxel, Grid.voxel2scanner, Aff.inv, Aff.det, Aff.comp,
      Aff.apply, scaleAff, idAff, unitGrid, stepInterp5]
    simp
  have hV : ∀ t ∈ subSamples { w211 with x0 := 0, x1 := 0, x2 := 0 },
      stepInterp5.sample (Reslice.subPos { w211 with x0 := 0, x1 := 0, x2 := 0 }
        t.2.2 t.2.1 t.1) ≠ Option.none →
      stepInterp5.sample (Reslice.subPos { w211 with x0 := 0, x1 := 0, x2 := 0 }
        t.2.2 t.2.1 t.1) = Option.some 5 := by
    intro t ht
    rw [hS] at ht
    rcases Finset.mem_insert.mp ht with h | h
    · subst h
      intro hne
      exact absurd e0 hne
    · rw [Finset.mem_singleton] at h
      subst h
      intro _
      exact e1
  refine ⟨rfl, by rw [hinvS, hS]; rfl, ?_⟩
  exact half_invalid_attenuation stepInterp5 unitGrid unitGrid idAff
    (Option.some (2, 1, 1)) w211 rfl (by decide) 0 0 0 5
    (by rw [hinvS, hS]; rfl) hV

/-- C5: with explicit factors (1,1,1) — or whenever the adopted factors
multiply to 1 — `value ()` performs exactly one source query, at the
integer cursor treated as exact continuous coordinates and mapped through
the composed transform, and returns the source's value directly. -/
theorem single_lookup_no_oversampling (I : Interp) (src ref : Grid) (T : Aff)
    (os : Option (ℤ × ℤ × ℤ)) (r : Reslice)
    (h : makeReslice I src ref T os = Except.ok r)
    (hone : os = Option.some (1, 1, 1) ∨ r.OS0 * r.OS1 * r.OS2 = 1)
    (c0 c1 c2 : ℤ) :
    resliceQueries { r with x0 := c0, x1 := c1, x2 := c2 } =
      [(composedDirect src ref T).apply ⟨(c0 : ℚ), (c1 : ℚ), (c2 : ℚ)⟩]
    ∧ resliceValue { r with x0 := c0, x1 := c1, x2 := c2 } =
      I.valueAt ((composedDirect src ref T).apply ⟨(c0 : ℚ), (c1 : ℚ), (c2 : ℚ)⟩) := by
  have hprod : r.OS0 * r.OS1 * r.OS2 = 1 := by
    rcases hone with hone | hone
    · subst hone
      simp only [makeReslice,
        if_neg (by norm_num : ¬((1 : ℤ) < 1 ∨ (1 : ℤ) < 1 ∨ (1 : ℤ) < 1)),
        Except.ok.injEq] at h
      subst h
      rfl
    · exact hone
  obtain ⟨a, b, c, rfl⟩ := makeReslice_ok_cases h
  simp only [planReslice] at hprod
  have hno : ¬ (1 < a * b * c) := by omega
  constructor <;> simp [resliceQueries, resliceValue, planReslice, hno]

/-- Witness for C5: with the explicit (1,1,1) plan of the end-to-end
grids, the query list is the single mapped cursor and the value is read
straight through. -/
theorem single_lookup_no_oversampling_witness :
    mk111 = Except.ok (rOf mk111)
    ∧ resliceQueries { rOf mk111 with x0 := 2, x1 := 3, x2 := 4 } =
        [(composedDirect srcGrid4 refGrid8 idAff).apply ⟨2, 3, 4⟩]
    ∧ resliceValue { rOf mk111 with x0 := 2, x1 := 3, x2 := 4 } = 3 := by
  have hok : mk111 = Except.ok (rOf mk111) := rfl
  have h := single_lookup_no_oversampling constInterp3 srcGrid4 refGrid8 idAff
    (Option.some (1, 1, 1)) (rOf mk111) hok (Or.inl rfl) 2 3 4
  refine ⟨hok, ?_, ?_⟩
  · simpa using h.1
  · rw [h.2]
    simp [Interp.valueAt, constInterp3]

lemma normSq_nonneg (v : Vec3) : 0 ≤ normSq v := by
  unfold normSq
  nlinarith [mul_self_nonneg v.x, mul_self_nonneg v.y, mul_self_nonneg v.z]

lemma osFactor_eq_ceil (d : Aff) (u : Vec3) (a : ℚ) (ha : 0 ≤ a)
    (hsq : normSq ((d.apply ⟨0, 0, 0⟩).sub (d.apply u)) = a * a) :
    osFactor d u = ⌈(999 / 1000 : ℝ) * (a : ℝ)⌉ := by
  unfold osFactor
  rw [hsq]
  have hcast : ((a * a : ℚ) : ℝ) = (a : ℝ) * (a : ℝ) := by push_cast; ring
  rw [hcast, Real.sqrt_mul_self (by exact_mod_cast ha)]

lemma osFactor_pos (d : Aff) (u : Vec3)
    (h : normSq ((d.apply ⟨0, 0, 0⟩).sub (d.apply u)) ≠ 0) :
    1 ≤ osFactor d u := by
  unfold osFactor
  have hq : (0 : ℝ) < ((normSq ((d.apply ⟨0, 0, 0⟩).sub (d.apply u)) : ℚ) : ℝ) := by
    have := lt_of_le_of_ne (normSq_nonneg ((d.apply ⟨0, 0, 0⟩).sub (d.apply u))) (Ne.symm h)
    exact_mod_cast this
  have := Int.ceil_pos.mpr
    (mul_pos (by norm_num : (0 : ℝ) < 999 / 1000) (Real.sqrt_pos.mpr hq))
  omega

/-- C7: when no reference-axis unit step maps to a zero-length
displacement under the composed mapping, every automatically estimated
oversampling factor is at least 1. -/
theorem auto_factors_positive (I : Interp) (src ref : Grid) (T : Aff) (r : Reslice)
    (h : makeReslice I src ref T Option.none = Except.ok r)
    (h0 : normSq (((composedDirect src ref T).apply ⟨0, 0, 0⟩).sub
        ((composedDirect src ref T).apply ⟨1, 0, 0⟩)) ≠ 0)
    (h1 : normSq (((composedDirect src ref T).apply ⟨0, 0, 0⟩).sub
        ((composedDirect src ref T).apply ⟨0, 1, 0⟩)) ≠ 0)
    (h2 : normSq (((composedDirect src ref T).apply ⟨0, 0, 0⟩).sub
        ((composedDirect src ref T).apply ⟨0, 0, 1⟩)) ≠ 0) :
    1 ≤ r.OS0 ∧ 1 ≤ r.OS1 ∧ 1 ≤ r.OS2 := by
  simp only [makeReslice, Except.ok.injEq] at h
  subst h
  exact ⟨osFactor_pos _ _ h0, osFactor_pos _ _ h1, osFactor_pos _ _ h2⟩

/-- Witness for C7: a concrete automatic construction over matching unit
grids, whose axis displacements are unit-length. -/
theorem auto_factors_positive_witness :
    makeReslice constInterp3 unitGrid unitGrid idAff Option.none =
      Except.ok (rOf mkAuto)
    ∧ normSq (((composedDirect unitGrid unitGrid idAff).apply ⟨0, 0, 0⟩).sub
        ((composedDirect unitGrid unitGrid idAff).apply ⟨1, 0, 0⟩)) ≠ 0
    ∧ 1 ≤ (rOf mkAuto).OS0 := by
  have hd0 : normSq (((composedDirect unitGrid unitGrid idAff).apply ⟨0, 0, 0⟩).sub
      ((composedDirect unitGrid unitGrid idAff).apply ⟨1, 0, 0⟩)) ≠ 0 := by
    norm_num [composedDirect, Grid.scanner2voxel, Grid.voxel2scanner, Aff.inv,
      Aff.det, Aff.comp, Aff.apply, scaleAff, idAff, unitGrid, normSq, Vec3.sub]
  have hd1 : normSq (((composedDirect unitGrid unitGrid idAff).apply ⟨0, 0, 0⟩).sub
      ((composedDirect unitGrid unitGrid idAff).apply ⟨0, 1, 0⟩)) ≠ 0 := by
    norm_num [composedDirect, Grid.scanner2voxel, Grid.voxel2scanner, Aff.inv,
      Aff.det, Aff.comp, Aff.apply, scaleAff, idAff, unitGrid, normSq, Vec3.sub]
  have hd2 : normSq (((composedDirect unitGrid unitGrid idAff).apply ⟨0, 0, 0⟩).sub
      ((composedDirect unitGrid unitGrid idAff).apply ⟨0, 0, 1⟩)) ≠ 0 := by
    norm_num [composedDirect, Grid.scanner2voxel, Grid.voxel2scanner, Aff.inv,
      Aff.det, Aff.comp, Aff.apply, scaleAff, idAff, unitGrid, normSq, Vec3.sub]
  exact ⟨rfl, hd0,
    (auto_factors_positive constInterp3 unitGrid unitGrid idAff (rOf mkAuto)
      rfl hd0 hd1 hd2).1⟩

lemma osFactor_e0_example :
    osFactor (composedDirect srcGrid4 refGrid8 idAff) ⟨1, 0, 0⟩ = 1 := by
  rw [osFactor_eq_ceil _ _ (1 / 2) (by norm_num)
    (by norm_num [composedDirect, Grid.scanner2voxel, Grid.voxel2scanner,
      Aff.inv, Aff.det, Aff.comp, Aff.apply, scaleAff, idAff, srcGrid4,
      refGrid8, normSq, Vec3.sub])]
  rw [Int.ceil_eq_iff]
  push_cast
  constructor <;> norm_num

lemma osFactor_e1_example :
    osFactor (composedDirect srcGrid4 refGrid8 idAff) ⟨0, 1, 0⟩ = 1 := by
  rw [osFactor_eq_ceil _ _ (1 / 2) (by norm_num)
    (by norm_num [composedDirect, Grid.scanner2voxel, Grid.voxel2scanner,
      Aff.inv, Aff.det, Aff.comp, Aff.apply, scaleAff, idAff, srcGrid4,
      refGrid8, normSq, Vec3.sub])]
  rw [Int.ceil_eq_iff]
  push_cast
  constructor <;> norm_num

lemma osFactor_e2_example :
    osFactor (composedDirect srcGrid4 refGrid8 idAff) ⟨0, 0, 1⟩ = 1 := by
  rw [osFactor_eq_ceil _ _ (1 / 2) (by norm_num)
    (by norm_num [composedDirect, Grid.scanner2voxel, Grid.voxel2scanner,
      Aff.inv, Aff.det, Aff.comp, Aff.apply, scaleAff, idAff, srcGrid4,
      refGrid8, normSq, Vec3.sub])]
  rw [Int.ceil_eq_iff]
  push_cast
  constructor <;> norm_num

/-- Counterexample to C3 as stated: for the 4x4x4 unit-spacing source and
8x8x8 half-spacing reference of the end-to-end example, the automatically
estimated oversampling factors are (1,1,1) (each reference step covers
half a source step, and ceil(0.999 * 0.5) = 1), not the (2,2,2) the claim
expects. -/
theorem auto_factors_example_cex :
    (makeReslice constInterp3 srcGrid4 refGrid8 idAff Option.none).map
        (fun r => (r.OS0, r.OS1, r.OS2)) =
      Except.ok ((1 : ℤ), (1 : ℤ), (1 : ℤ))
    ∧ ((1 : ℤ), (1 : ℤ), (1 : ℤ)) ≠ ((2 : ℤ), (2 : ℤ), (2 : ℤ)) := by
  constructor
  · simp only [makeReslice, Except.map]
    rw [osFactor_e0_example, osFactor_e1_example, osFactor_e2_example]
    rfl
  · decide

/-- C3 (amended): for the end-to-end example grids the estimated factors
are (1,1,1), and resampling a source volume that reads 3 everywhere
yields 3 at every output voxel (through the single-lookup path). -/
theorem auto_factors_example_amended (c0 c1 c2 : ℤ) :
    (makeReslice constInterp3 srcGrid4 refGrid8 idAff Option.none).map
        (fun r => ((r.OS0, r.OS1, r.OS2),
          resliceValue { r with x0 := c0, x1 := c1, x2 := c2 })) =
      Except.ok (((1 : ℤ), (1 : ℤ), (1 : ℤ)), (3 : ℚ)) := by
  simp only [makeReslice, Except.map]
  rw [osFactor_e0_example, osFactor_e1_example, osFactor_e2_example]
  simp [planReslice, resliceValue, Interp.valueAt, constInterp3]

/-- Witness for the amended C3 at a concrete output cursor. -/
theorem auto_factors_example_amended_witness :
    (makeReslice constInterp3 srcGrid4 refGrid8 idAff Option.none).map
        (fun r => ((r.OS0, r.OS1, r.OS2),
          resliceValue { r with x0 := 5, x1 := 6, x2 := 7 })) =
      Except.ok (((1 : ℤ), (1 : ℤ), (1 : ℤ)), (3 : ℚ)) :=
  auto_factors_example_amended 5 6 7

lemma Aff.comp_assoc (A B C : Aff) : (A.comp B).comp C = A.comp (B.comp C) := by
  simp only [Aff.comp, Aff.mk.injEq]
  refine ⟨?_, ?_, ?_, ?_, ?_, ?_, ?_, ?_, ?_, ?_, ?_, ?_⟩ <;> ring

lemma normSq_disp_scale (M : Aff) (s v1 v2 : ℚ) :
    normSq (((M.comp (scaleAff s v1 v2)).apply ⟨0, 0, 0⟩).sub
        ((M.comp (scaleAff s v1 v2)).apply ⟨1, 0, 0⟩)) =
      s * s * normSq ((M.apply ⟨0, 0, 0⟩).sub (M.apply ⟨1, 0, 0⟩)) := by
  simp only [Aff.comp, Aff.apply, Vec3.sub, normSq, scaleAff]
  ring

lemma normSq_disp_scale1 (M : Aff) (v0 s v2 : ℚ) :
    normSq (((M.comp (scaleAff v0 s v2)).apply ⟨0, 0, 0⟩).sub
        ((M.comp (scaleAff v0 s v2)).apply ⟨0, 1, 0⟩)) =
      s * s * normSq ((M.apply ⟨0, 0, 0⟩).sub (M.apply ⟨0, 1, 0⟩)) := by
  simp only [Aff.comp, Aff.apply, Vec3.sub, normSq, scaleAff]
  ring

lemma normSq_disp_scale2 (M : Aff) (v0 v1 s : ℚ) :
    normSq (((M.comp (scaleAff v0 v1 s)).apply ⟨0, 0, 0⟩).sub
        ((M.comp (scaleAff v0 v1 s)).apply ⟨0, 0, 1⟩)) =
      s * s * normSq ((M.apply ⟨0, 0, 0⟩).sub (M.apply ⟨0, 0, 1⟩)) := by
  simp only [Aff.comp, Aff.apply, Vec3.sub, normSq, scaleAff]
  ring

lemma osFactor_scale_mono (M : Aff) (v1 v2 : ℚ) (s1 s2 : ℚ)
    (h0 : 0 ≤ s1) (hle : s1 ≤ s2) :
    osFactor (M.comp (scaleAff s1 v1 v2)) ⟨1, 0, 0⟩ ≤
      osFactor (M.comp (scaleAff s2 v1 v2)) ⟨1, 0, 0⟩ := by
  unfold osFactor
  rw [normSq_disp_scale, normSq_disp_scale]
  apply Int.ceil_mono
  apply mul_le_mul_of_nonneg_left ?_ (by norm_num : (0 : ℝ) ≤ 999 / 1000)
  apply Real.sqrt_le_sqrt
  have hq := normSq_nonneg ((M.apply ⟨0, 0, 0⟩).sub (M.apply ⟨1, 0, 0⟩))
  exact_mod_cast mul_le_mul_of_nonneg_right
    (mul_le_mul hle hle h0 (h0.trans hle)) hq

lemma osFactor_scale_mono1 (M : Aff) (v0 v2 : ℚ) (s1 s2 : ℚ)
    (h0 : 0 ≤ s1) (hle : s1 ≤ s2) :
    osFactor (M.comp (scaleAff v0 s1 v2)) ⟨0, 1, 0⟩ ≤
      osFactor (M.comp (scaleAff v0 s2 v2)) ⟨0, 1, 0⟩ := by
  unfold osFactor
  rw [normSq_disp_scale1, normSq_disp_scale1]
  apply Int.ceil_mono
  apply mul_le_mul_of_nonneg_left ?_ (by norm_num : (0 : ℝ) ≤ 999 / 1000)
  apply Real.sqrt_le_sqrt
  have hq := normSq_nonneg ((M.apply ⟨0, 0, 0⟩).sub (M.apply ⟨0, 1, 0⟩))
  exact_mod_cast mul_le_mul_of_nonneg_right
    (mul_le_mul hle hle h0 (h0.trans hle)) hq

lemma osFactor_scale_mono2 (M : Aff) (v0 v1 : ℚ) (s1 s2 : ℚ)
    (h0 : 0 ≤ s1) (hle : s1 ≤ s2) :
    osFactor (M.comp (scaleAff v0 v1 s1)) ⟨0, 0, 1⟩ ≤
      osFactor (M.comp (scaleAff v0 v1 s2)) ⟨0, 0, 1⟩ := by
  unfold osFactor
  rw [normSq_disp_scale2, normSq_disp_scale2]
  apply Int.ceil_mono
  apply mul_le_mul_of_nonneg_left ?_ (by norm_num : (0 : ℝ) ≤ 999 / 1000)
  apply Real.sqrt_le_sqrt
  have hq := normSq_nonneg ((M.apply ⟨0, 0, 0⟩).sub (M.apply ⟨0, 0, 1⟩))
  exact_mod_cast mul_le_mul_of_nonneg_right
    (mul_le_mul hle hle h0 (h0.trans hle)) hq

/-- C4 (amended): on each spatial axis, the estimated factor is monotone
non-decreasing in the reference grid's spacing on that axis — shrinking
the spacing (finer reference grid) never increases the factor, and
equivalently growing it never decreases the factor. -/
theorem osFactor_monotone_in_ref_spacing (src ref : Grid) (T : Aff)
    (s1 s2 : ℚ) (h0 : 0 ≤ s1) (hle : s1 ≤ s2) :
    estFactor0 src (setVox0 ref s1) T ≤ estFactor0 src (setVox0 ref s2) T
    ∧ estFactor1 src (setVox1 ref s1) T ≤ estFactor1 src (setVox1 ref s2) T
    ∧ estFactor2 src (setVox2 ref s1) T ≤ estFactor2 src (setVox2 ref s2) T := by
  refine ⟨?_, ?_, ?_⟩
  · unfold estFactor0
    have hrw : ∀ s : ℚ, composedDirect src (setVox0 ref s) T =
        ((src.scanner2voxel.comp T).comp ref.transform).comp
          (scaleAff s ref.vox1 ref.vox2) := by
      intro s
      unfold composedDirect Grid.voxel2scanner setVox0
      rw [← Aff.comp_assoc]
    rw [hrw s1, hrw s2]
    exact osFactor_scale_mono _ _ _ _ _ h0 hle
  · unfold estFactor1
    have hrw : ∀ s : ℚ, composedDirect src (setVox1 ref s) T =
        ((src.scanner2voxel.comp T).comp ref.transform).comp
          (scaleAff ref.vox0 s ref.vox2) := by
      intro s
      unfold composedDirect Grid.voxel2scanner setVox1
      rw [← Aff.comp_assoc]
    rw [hrw s1, hrw s2]
    exact osFactor_scale_mono1 _ _ _ _ _ h0 hle
  · unfold estFactor2
    have hrw : ∀ s : ℚ, composedDirect src (setVox2 ref s) T =
        ((src.scanner2voxel.comp T).comp ref.transform).comp
          (scaleAff ref.vox0 ref.vox1 s) := by
      intro s
      unfold composedDirect Grid.voxel2scanner setVox2
      rw [← Aff.comp_assoc]
    rw [hrw s1, hrw s2]
    exact osFactor_scale_mono2 _ _ _ _ _ h0 hle

lemma estFactor0_sp2 : estFactor0 unitGrid (setVox0 unitGrid 2) idAff = 2 := by
  unfold estFactor0
  rw [osFactor_eq_ceil _ _ 2 (by norm_num)
    (by norm_num [composedDirect, Grid.scanner2voxel, Grid.voxel2scanner,
      Aff.inv, Aff.det, Aff.comp, Aff.apply, scaleAff, idAff, unitGrid,
      setVox0, normSq, Vec3.sub])]
  rw [Int.ceil_eq_iff]
  push_cast
  constructor <;> norm_num

lemma estFactor0_sp1 : estFactor0 unitGrid (setVox0 unitGrid 1) idAff = 1 := by
  unfold estFactor0
  rw [osFactor_eq_ceil _ _ 1 (by norm_num)
    (by norm_num [composedDirect, Grid.scanner2voxel, Grid.voxel2scanner,
      Aff.inv, Aff.det, Aff.comp, Aff.apply, scaleAff, idAff, unitGrid,
      setVox0, normSq, Vec3.sub])]
  rw [Int.ceil_eq_iff]
  push_cast
  constructor <;> norm_num

/-- Counterexample to C4 as stated: with unit source grid and identity
transforms, lowering the reference spacing on axis 0 from 2 to 1 lowers
the estimated factor from 2 to 1 — decreasing the spacing strictly
decreased the factor. -/
theorem spacing_monotonicity_cex :
    estFactor0 unitGrid (setVox0 unitGrid 2) idAff = 2
    ∧ estFactor0 unitGrid (setVox0 unitGrid 1) idAff = 1
    ∧ estFactor0 unitGrid (setVox0 unitGrid 1) idAff <
        estFactor0 unitGrid (setVox0 unitGrid 2) idAff := by
  refine ⟨estFactor0_sp2, estFactor0_sp1, ?_⟩
  rw [estFactor0_sp1, estFactor0_sp2]
  norm_num

/-- Witness for the amended C4 at concrete spacings 1 and 2, on all three
spatial axes. -/
theorem osFactor_monotone_in_ref_spacing_witness :
    (0 : ℚ) ≤ 1 ∧ (1 : ℚ) ≤ 2
    ∧ (estFactor0 unitGrid (setVox0 unitGrid 1) idAff ≤
          estFactor0 unitGrid (setVox0 unitGrid 2) idAff
      ∧ estFactor1 unitGrid (setVox1 unitGrid 1) idAff ≤
          estFactor1 unitGrid (setVox1 unitGrid 2) idAff
      ∧ estFactor2 unitGrid (setVox2 unitGrid 1) idAff ≤
          estFactor2 unitGrid (setVox2 unitGrid 2) idAff) :=
  ⟨by norm_num, by norm_num,
    osFactor_monotone_in_ref_spacing unitGrid unitGrid idAff 1 2
      (by norm_num) (by norm_num)⟩

end MRReslice
